import Mathlib

set_option linter.unusedVariables false

/-!
Shallow embedding of the resolver/business-logic layer of the GrapgQL_Medico
backend (src/resolvers.ts together with the GraphQL schema in typeDefs).

Modelling choices, all taken from the source:

* MongoDB `ObjectId` values are modelled as `Nat`.  The store assigns fresh
  identifiers from a counter `nextOid`; a freshly generated identifier is
  distinct from every identifier already stored (theorems that need this
  carry the corresponding hypothesis on the state).
* Conversion of a supplied identifier string to an `ObjectId`
  (`new ObjectId(s)` in the source) is external library code; it is modelled
  as a parameter `parseOid : String → Option Nat` of the environment, `none`
  meaning the constructor throws because the string is not a well-formed
  identifier.  Per the error taxonomy of the specification this failure is
  classified as `InvalidArgument`.
* JavaScript date parsing (`new Date(s)`) is external runtime code; it is a
  parameter `jsDate : String → Option Int` of the environment.  `new Date`
  never throws: an unparseable string yields the Invalid Date value, which is
  modelled as `none`.  The resolver code performs no validity check on it.
* The phone validator `validar` is imported from src/utils.ts, which is not
  part of the sources; it is a parameter `validar : String → Bool` of the
  environment, so every theorem quantifies over all possible validators.
* GraphQL errors are mapped to the error taxonomy of the specification:
  "Contact not found" / "Paciente no encontrado" to `NotFound`,
  "ya existe el paciente" / "Ya existe una cita ..." to `Conflict`,
  "telefono invalido" and an identifier-constructor throw to
  `InvalidArgument`.
-/

namespace Medico

/-- Error taxonomy of the resolver layer. -/
inductive Err where
  | NotFound
  | Conflict
  | InvalidArgument
deriving DecidableEq, Repr

/-- A stored patient document (collection `pacientes`).  The shape is taken
from the uses in src/resolvers.ts: `_id` assigned by the store, plus the three
argument fields of `addPatient`. -/
structure Paciente where
  _id : Nat
  nombre : String
  telefono : String
  correo : String
deriving DecidableEq, Repr

/-- A stored appointment document (collection `citas`): `_id`, the `paciente`
reference stored as an ObjectId, the `fecha` stored as the result of
`new Date(fecha)` (`none` models the Invalid Date value) and the free-text
`tipo`. -/
structure Cita where
  _id : Nat
  paciente : Nat
  fecha : Option Int
  tipo : String
deriving DecidableEq, Repr

/-- The document store: the two collections plus the counter from which the
store assigns fresh identifiers. -/
structure DB where
  pacientes : List Paciente
  citas : List Cita
  nextOid : Nat
deriving DecidableEq, Repr

/-- The empty store. -/
def DB.empty : DB := ⟨[], [], 0⟩

/-- External collaborators of the resolver layer: identifier-string parsing
(`new ObjectId`), JavaScript date parsing (`new Date`) and the phone
validator `validar` from src/utils.ts (absent from the sources). -/
structure Env where
  parseOid : String → Option Nat
  jsDate : String → Option Int
  validar : String → Bool

/-- Arguments of the `updatePatient` mutation as the GraphQL schema delivers
them at runtime: `updatePatient(id:ID!, nombre:String, telefono:String,
correo:String)`.  The three optional fields are `none` when omitted. -/
structure UpdateArgs where
  id : String
  nombre : Option String
  telefono : Option String
  correo : Option String
deriving DecidableEq, Repr

/-- JavaScript truthiness of an optional string argument (`if(telefono)` in
the source): absent and the empty string are falsy. -/
def jsTruthy : Option String → Bool
  | some t => t != ""
  | none => false

/-- Query.getPacient: looks up one patient by `new ObjectId(args.id)`; throws
"Contact not found" when none exists. -/
def getPacient (env : Env) (db : DB) (id : String) : Except Err Paciente :=
  match env.parseOid id with
  | none => Except.error Err.InvalidArgument
  | some oid =>
    match db.pacientes.find? (fun p => p._id == oid) with
    | none => Except.error Err.NotFound
    | some p => Except.ok p

/-- Mutation.addPatient: `findOne` with the filter
matching on `correo` or on `telefono`; throws "ya existe el paciente" on a
match, otherwise inserts the three fields and returns them together with the
assigned `insertedId`. -/
def addPatient (env : Env) (db : DB) (nombre telefono correo : String) :
    Except Err Paciente × DB :=
  if (db.pacientes.find? fun p => p.correo == correo || p.telefono == telefono).isSome then
    (Except.error Err.Conflict, db)
  else
    let newP : Paciente := ⟨db.nextOid, nombre, telefono, correo⟩
    (Except.ok newP,
     { db with pacientes := db.pacientes ++ [newP], nextOid := db.nextOid + 1 })

/-- Mutation.addAppointment: converts `paciente` with `new ObjectId` (throws
on a malformed string) and `fecha` with `new Date` (never throws; an
unparseable string yields Invalid Date, modelled `none`); `findOne` on the
pair, throwing "Ya existe una cita para este paciente en esa fecha" on a
match; otherwise inserts and returns the new document with its assigned id. -/
def addAppointment (env : Env) (db : DB) (paciente fecha tipo : String) :
    Except Err Cita × DB :=
  match env.parseOid paciente with
  | none => (Except.error Err.InvalidArgument, db)
  | some oid =>
    let d := env.jsDate fecha
    if (db.citas.find? fun c => c.paciente == oid && c.fecha == d).isSome then
      (Except.error Err.Conflict, db)
    else
      let newC : Cita := ⟨db.nextOid, oid, d, tipo⟩
      (Except.ok newC,
       { db with citas := db.citas ++ [newC], nextOid := db.nextOid + 1 })

/-- Model of `deleteOne` on the `citas` collection: removes the first
document whose `_id` matches, leaving the rest untouched. -/
def deleteOneCita (oid : Nat) : List Cita → List Cita
  | [] => []
  | c :: rest => if c._id == oid then rest else c :: deleteOneCita oid rest

/-- Mutation.deleteAppointment: `deleteOne` by `new ObjectId(args.id)`
(throws on a malformed string); returns `false` when `deletedCount` is zero
and `true` otherwise — a missing id is not an error. -/
def deleteAppointment (env : Env) (db : DB) (id : String) : Except Err Bool × DB :=
  match env.parseOid id with
  | none => (Except.error Err.InvalidArgument, db)
  | some oid =>
    match db.citas.find? (fun c => c._id == oid) with
    | none => (Except.ok false, db)
    | some _ => (Except.ok true, { db with citas := deleteOneCita oid db.citas })

/-- Mutation.updatePatient.  The source destructures the keys `_id` and
`telefono` out of `args`, but the schema delivers the identifier under the
key `id`
(`updatePatient(id:ID!, ...)`), so `_id` is `undefined` at runtime.
`new ObjectId(undefined)` does not throw: it generates a fresh identifier,
modelled as `db.nextOid`, which matches no stored document whenever every
stored identifier is below the counter.  The first `findOne` therefore finds
nothing and the resolver throws "Paciente no encontrado" before consulting
the phone validator and before `findOneAndUpdate`.  The later branches mirror
the source: the phone validation (`if(telefono)` then `validar`), and the
final `findOneAndUpdate`, whose filter is built from a second freshly
generated `new ObjectId(undefined)` and hence matches no stored document,
so its null result raises "Contact not found".  No branch writes to the
store. -/
def updatePatient (env : Env) (db : DB) (args : UpdateArgs) :
    Except Err Paciente × DB :=
  let lookupOid := db.nextOid
  match db.pacientes.find? (fun p => p._id == lookupOid) with
  | none => (Except.error Err.NotFound, db)
  | some _ =>
    if jsTruthy args.telefono && !env.validar (args.telefono.getD "") then
      (Except.error Err.InvalidArgument, db)
    else
      (Except.error Err.NotFound, db)

/-- The `$set` payload of `updatePatient` as built at runtime by the
rest-spread on resolvers.ts line 236: every key of the argument object except
`_id`, each field present exactly when it was supplied. -/
structure SetPayload where
  id : Option String
  nombre : Option String
  telefono : Option String
  correo : Option String
deriving DecidableEq, Repr

/-- Model of `const (destructure _id out of args, keep the rest) =
updateFields` in Mutation.updatePatient: the rest-spread removes only the key
`_id`, which the runtime argument object never carries (the schema delivers
the identifier as `id`), so the external `id` string remains in the `$set`
payload together with whichever optional fields were supplied. -/
def updateFieldsOf (args : UpdateArgs) : SetPayload :=
  ⟨some args.id, args.nombre, args.telefono, args.correo⟩

/-- Equality on results of the resolver operations is decidable, so witnesses
can be checked by evaluation. -/
instance instDecEqExcept {ε α : Type} [DecidableEq ε] [DecidableEq α] :
    DecidableEq (Except ε α) := fun x y =>
  match x, y with
  | Except.ok a, Except.ok b =>
    if h : a = b then isTrue (by rw [h]) else isFalse (fun he => by cases he; exact h rfl)
  | Except.ok _, Except.error _ => isFalse (fun he => by cases he)
  | Except.error _, Except.ok _ => isFalse (fun he => by cases he)
  | Except.error e, Except.error f =>
    if h : e = f then isTrue (by rw [h]) else isFalse (fun he => by cases he; exact h rfl)

/-- A concrete environment used only in witnesses and counterexamples: a
fixed table of well-formed identifier strings (each shaped like a 24-digit
ObjectId string), two fixed date strings that parse while every other string
is unparseable, and a phone validator accepting exactly the strings of length
at least five. -/
def demoEnv : Env :=
  ⟨fun s =>
     if s == "000000000000000000000000" then some 0
     else if s == "000000000000000000000001" then some 1
     else if s == "000000000000000000000042" then some 42
     else if s == "000000000000000000000099" then some 99
     else none,
   fun s =>
     if s == "2024-05-01" then some 1714521600000
     else if s == "2024-05-02" then some 1714608000000
     else none,
   fun s => decide (5 ≤ s.length)⟩

/-- A store holding one patient, for witnesses. -/
def dbAna : DB := ⟨[⟨0, "Ana", "555-0001", "a@x.com"⟩], [], 1⟩

/-- A store holding one patient and one appointment, for witnesses. -/
def dbCita : DB :=
  ⟨[⟨0, "Ana", "555-0001", "a@x.com"⟩], [⟨1, 0, some 1714521600000, "checkup"⟩], 2⟩

/-! Helper lemmas shared by the claim theorems below. -/

/-- Conflict case of `addPatient`: a stored patient with the same `correo` or
`telefono` makes the mutation fail and leaves the store unchanged. -/
theorem addPatient_conflict (env : Env) (db : DB) (nombre telefono correo : String)
    (h : ∃ p ∈ db.pacientes, p.correo = correo ∨ p.telefono = telefono) :
    addPatient env db nombre telefono correo = (Except.error Err.Conflict, db) := by
  have hfind : (db.pacientes.find? fun p => p.correo == correo || p.telefono == telefono).isSome = true := by
    rw [List.find?_isSome]
    obtain ⟨p, hp, hor⟩ := h
    exact ⟨p, hp, by simpa using hor⟩
  simp [addPatient, hfind]

/-- Insert case of `addPatient`: with no stored match on `correo` or
`telefono`, the mutation appends exactly one document carrying the fresh id
and returns it. -/
theorem addPatient_insert (env : Env) (db : DB) (nombre telefono correo : String)
    (h : ∀ p ∈ db.pacientes, p.correo ≠ correo ∧ p.telefono ≠ telefono) :
    addPatient env db nombre telefono correo =
      (Except.ok ⟨db.nextOid, nombre, telefono, correo⟩,
       { db with pacientes := db.pacientes ++ [⟨db.nextOid, nombre, telefono, correo⟩],
                 nextOid := db.nextOid + 1 }) := by
  have hfind : (db.pacientes.find? fun p => p.correo == correo || p.telefono == telefono) = none := by
    rw [List.find?_eq_none]
    intro p hp
    simp [(h p hp).1, (h p hp).2]
  simp [addPatient, hfind]

/-- Conflict case of `addAppointment`: a stored appointment with the same
patient reference and the same parsed date makes the mutation fail. -/
theorem addAppointment_conflict (env : Env) (db : DB) (paciente fecha tipo : String)
    (oid : Nat) (hp : env.parseOid paciente = some oid)
    (h : ∃ c ∈ db.citas, c.paciente = oid ∧ c.fecha = env.jsDate fecha) :
    addAppointment env db paciente fecha tipo = (Except.error Err.Conflict, db) := by
  have hfind : (db.citas.find? fun c => c.paciente == oid && c.fecha == env.jsDate fecha).isSome = true := by
    rw [List.find?_isSome]
    obtain ⟨c, hc, h1, h2⟩ := h
    exact ⟨c, hc, by simp [h1, h2]⟩
  simp [addAppointment, hp, hfind]

/-- Insert case of `addAppointment`: with no stored appointment on the same
(reference, parsed date) pair, the mutation appends exactly one document with
the fresh id and returns it. -/
theorem addAppointment_insert (env : Env) (db : DB) (paciente fecha tipo : String)
    (oid : Nat) (hp : env.parseOid paciente = some oid)
    (h : ∀ c ∈ db.citas, ¬(c.paciente = oid ∧ c.fecha = env.jsDate fecha)) :
    addAppointment env db paciente fecha tipo =
      (Except.ok ⟨db.nextOid, oid, env.jsDate fecha, tipo⟩,
       { db with citas := db.citas ++ [⟨db.nextOid, oid, env.jsDate fecha, tipo⟩],
                 nextOid := db.nextOid + 1 }) := by
  have hfind : (db.citas.find? fun c => c.paciente == oid && c.fecha == env.jsDate fecha) = none := by
    rw [List.find?_eq_none]
    intro c hc
    have := h c hc
    simp only [Bool.and_eq_true, beq_iff_eq]
    tauto
  simp [addAppointment, hp, hfind]

/-- Every branch of `updatePatient` returns the store unchanged: the only
write, `findOneAndUpdate`, filters on a freshly generated identifier and
updates nothing. -/
theorem updatePatient_state_id (env : Env) (db : DB) (args : UpdateArgs) :
    (updatePatient env db args).2 = db := by
  unfold updatePatient
  dsimp only
  split
  · rfl
  · split <;> rfl

/-- When every stored patient id is below the fresh counter (as is the case
for store-assigned ids), `updatePatient` fails with NotFound and leaves the
store unchanged, whatever its arguments. -/
theorem updatePatient_notFound (env : Env) (db : DB) (args : UpdateArgs)
    (hfresh : ∀ p ∈ db.pacientes, p._id ≠ db.nextOid) :
    updatePatient env db args = (Except.error Err.NotFound, db) := by
  have hfind : (db.pacientes.find? fun p => p._id == db.nextOid) = none := by
    rw [List.find?_eq_none]
    intro p hp
    simpa using hfresh p hp
  simp [updatePatient, hfind]

/-- After `deleteOneCita` removed the first match, no further document with
the same `_id` remains, provided the stored ids were distinct. -/
theorem deleteOneCita_find_none (oid : Nat) (l : List Cita)
    (hnd : (l.map Cita._id).Nodup) :
    (deleteOneCita oid l).find? (fun c => c._id == oid) = none := by
  induction l with
  | nil => rfl
  | cons a l ih =>
    rw [List.map_cons, List.nodup_cons] at hnd
    by_cases h : a._id = oid
    · rw [deleteOneCita, if_pos (by simpa using h)]
      rw [List.find?_eq_none]
      intro c hc
      simp only [beq_iff_eq]
      intro he
      exact hnd.1 (by rw [h, ← he]; exact List.mem_map_of_mem _ hc)
    · rw [deleteOneCita, if_neg (by simpa using h)]
      rw [List.find?_cons_of_neg _ (by simpa using h)]
      exact ih hnd.2

/-- Found case of `deleteAppointment`: a stored appointment with the given id
is removed and the mutation reports `true`. -/
theorem deleteAppointment_found (env : Env) (db : DB) (id : String) (oid : Nat)
    (hp : env.parseOid id = some oid)
    (h : ∃ c ∈ db.citas, c._id = oid) :
    deleteAppointment env db id
      = (Except.ok true, { db with citas := deleteOneCita oid db.citas }) := by
  have hfind : (db.citas.find? fun c => c._id == oid).isSome = true := by
    rw [List.find?_isSome]
    obtain ⟨c, hc, he⟩ := h
    exact ⟨c, hc, by simpa using he⟩
  rw [Option.isSome_iff_exists] at hfind
  obtain ⟨c, hc⟩ := hfind
  simp [deleteAppointment, hp, hc]

/-- Missing case of `deleteAppointment`: with no stored appointment under the
given id the mutation reports `false` and changes nothing. -/
theorem deleteAppointment_missing (env : Env) (db : DB) (id : String) (oid : Nat)
    (hp : env.parseOid id = some oid)
    (h : ∀ c ∈ db.citas, c._id ≠ oid) :
    deleteAppointment env db id = (Except.ok false, db) := by
  have hfind : (db.citas.find? fun c => c._id == oid) = none := by
    rw [List.find?_eq_none]
    intro c hc
    simpa using h c hc
  simp [deleteAppointment, hp, hfind]


/-! Claim theorems. -/

/-- Claim C1: for every input (name, phone, email), if some stored patient
has the same phone or the same email (even if the other field differs),
`addPatient` fails with Conflict and inserts nothing; otherwise it inserts
exactly one document and returns a Patient whose id is the freshly assigned
store id and whose name, phone and email equal the input. -/
theorem addPatient_spec (env : Env) (db : DB) (nombre telefono correo : String) :
    ((∃ p ∈ db.pacientes, p.correo = correo ∨ p.telefono = telefono) →
        addPatient env db nombre telefono correo = (Except.error Err.Conflict, db)) ∧
    ((∀ p ∈ db.pacientes, p.correo ≠ correo ∧ p.telefono ≠ telefono) →
        addPatient env db nombre telefono correo =
          (Except.ok ⟨db.nextOid, nombre, telefono, correo⟩,
           { db with pacientes := db.pacientes ++ [⟨db.nextOid, nombre, telefono, correo⟩],
                     nextOid := db.nextOid + 1 })) :=
  ⟨fun h => addPatient_conflict env db nombre telefono correo h,
   fun h => addPatient_insert env db nombre telefono correo h⟩

/-- Witness for C1: a phone collision (with a different email) is rejected
against `dbAna`, and an unconflicted insert into the empty store returns the
new patient under the fresh id 0. -/
theorem addPatient_spec_witness :
    addPatient demoEnv dbAna "Bob" "555-0001" "b@x.com" = (Except.error Err.Conflict, dbAna) ∧
    addPatient demoEnv DB.empty "Ana" "555-0001" "a@x.com" =
      (Except.ok ⟨0, "Ana", "555-0001", "a@x.com"⟩,
       ⟨[⟨0, "Ana", "555-0001", "a@x.com"⟩], [], 1⟩) :=
  ⟨(addPatient_spec demoEnv dbAna "Bob" "555-0001" "b@x.com").1 (by decide),
   (addPatient_spec demoEnv DB.empty "Ana" "555-0001" "a@x.com").2 (by decide)⟩

/-- Claim C2: for every (patientRef, date, type), if an appointment with the
same patientRef and the same parsed date already exists (regardless of its
type), `addAppointment` fails with Conflict and inserts nothing; with a
different parsed date for the same patientRef it succeeds and returns the new
appointment with its assigned id. -/
theorem addAppointment_spec (env : Env) (db : DB) (paciente fecha tipo : String)
    (oid : Nat) (hp : env.parseOid paciente = some oid) :
    ((∃ c ∈ db.citas, c.paciente = oid ∧ c.fecha = env.jsDate fecha) →
        addAppointment env db paciente fecha tipo = (Except.error Err.Conflict, db)) ∧
    ((∀ c ∈ db.citas, ¬(c.paciente = oid ∧ c.fecha = env.jsDate fecha)) →
        addAppointment env db paciente fecha tipo =
          (Except.ok ⟨db.nextOid, oid, env.jsDate fecha, tipo⟩,
           { db with citas := db.citas ++ [⟨db.nextOid, oid, env.jsDate fecha, tipo⟩],
                     nextOid := db.nextOid + 1 })) :=
  ⟨fun h => addAppointment_conflict env db paciente fecha tipo oid hp h,
   fun h => addAppointment_insert env db paciente fecha tipo oid hp h⟩

/-- Witness for C2: against `dbCita`, repeating the stored (patient, date)
pair with a different type is a Conflict, while the same patient on the other
parseable date succeeds under the fresh id 2. -/
theorem addAppointment_spec_witness :
    addAppointment demoEnv dbCita "000000000000000000000000" "2024-05-01" "revision"
        = (Except.error Err.Conflict, dbCita) ∧
    addAppointment demoEnv dbCita "000000000000000000000000" "2024-05-02" "revision"
        = (Except.ok ⟨2, 0, some 1714608000000, "revision"⟩,
           ⟨dbCita.pacientes, dbCita.citas ++ [⟨2, 0, some 1714608000000, "revision"⟩], 3⟩) :=
  ⟨(addAppointment_spec demoEnv dbCita "000000000000000000000000" "2024-05-01" "revision" 0
      (by decide)).1 (by decide),
   (addAppointment_spec demoEnv dbCita "000000000000000000000000" "2024-05-02" "revision" 0
      (by decide)).2 (by decide)⟩

/-- Claim C3 (code bug): the claim says `updatePatient` applies only the
supplied fields as a partial merge against the stored document, with the id
never part of the update payload and unsupplied fields keeping their prior
values.  The source breaks both clauses.  First, the rest-spread strips the
key `_id`, which the runtime argument object never carries, so the external
`id` string stays in the `$set` payload.  Second, the `_id` versus `id` slip
makes the preceding existence lookup use a freshly generated ObjectId, so no
merge is ever applied: the stored patient 0, addressed by its own well-formed
id string with only a new name supplied, gets NotFound and its document —
name included — is left exactly as it was, rather than the claimed
post-update document in which only the name changed. -/
theorem updatePatient_merge_bug :
    (updateFieldsOf ⟨"000000000000000000000000", some "Bea", none, none⟩).id
        = some "000000000000000000000000" ∧
    (∃ p ∈ dbAna.pacientes, demoEnv.parseOid "000000000000000000000000" = some p._id) ∧
    updatePatient demoEnv dbAna ⟨"000000000000000000000000", some "Bea", none, none⟩
        = (Except.error Err.NotFound, dbAna) ∧
    (updatePatient demoEnv dbAna ⟨"000000000000000000000000", some "Bea", none, none⟩).2.pacientes
        ≠ [⟨0, "Bea", "555-0001", "a@x.com"⟩] := by decide

/-- Claim C4 (code bug): the claim says a supplied phone is passed through
the validator and a rejected phone fails with InvalidArgument.  Because the
existence lookup uses a freshly generated ObjectId (the `_id` versus `id`
slip), the call fails with NotFound first: here the addressed patient exists
and the supplied phone is rejected by the validator, yet the result is
NotFound, not InvalidArgument. -/
theorem updatePatient_phone_validation_bug :
    demoEnv.validar "bad" = false ∧
    (∃ p ∈ dbAna.pacientes, demoEnv.parseOid "000000000000000000000000" = some p._id) ∧
    updatePatient demoEnv dbAna ⟨"000000000000000000000000", none, some "bad", none⟩
        = (Except.error Err.NotFound, dbAna) := by decide

/-- Claim C5 (code bug): the claim says `updatePatient` on an existing
patient returns the post-update document.  Because of the `_id` versus `id`
slip the call fails with NotFound even for the stored patient addressed by
its own id, with all three fields supplied and a validator-accepted phone. -/
theorem updatePatient_always_notfound_bug :
    demoEnv.validar "555-0002" = true ∧
    (∃ p ∈ dbAna.pacientes, demoEnv.parseOid "000000000000000000000000" = some p._id) ∧
    updatePatient demoEnv dbAna
        ⟨"000000000000000000000000", some "Carla", some "555-0002", some "c@x.com"⟩
        = (Except.error Err.NotFound, dbAna) := by decide

/-- Claim C6 counterexample: the claim says an unparseable date makes
`addAppointment` fail with InvalidArgument and insert nothing.  The source
calls `new Date(fecha)` without any validity check, so with the unparseable
string "garbage" the mutation succeeds and inserts a document carrying the
Invalid Date value. -/
theorem addAppointment_invalid_date_cex :
    demoEnv.jsDate "garbage" = none ∧
    addAppointment demoEnv DB.empty "000000000000000000000042" "garbage" "checkup"
        = (Except.ok ⟨0, 42, none, "checkup"⟩, ⟨[], [⟨0, 42, none, "checkup"⟩], 1⟩) := by decide

/-- Claim C6 (amended): `addAppointment` performs no validity check on the
date string: an unparseable date yields the Invalid Date value, and when no
stored appointment matches the (patientRef, Invalid Date) pair the mutation
succeeds and inserts a document carrying that value instead of failing with
InvalidArgument. -/
theorem addAppointment_invalid_date (env : Env) (db : DB)
    (paciente fecha tipo : String) (oid : Nat)
    (hp : env.parseOid paciente = some oid)
    (hd : env.jsDate fecha = none)
    (h : ∀ c ∈ db.citas, ¬(c.paciente = oid ∧ c.fecha = none)) :
    addAppointment env db paciente fecha tipo =
      (Except.ok ⟨db.nextOid, oid, none, tipo⟩,
       { db with citas := db.citas ++ [⟨db.nextOid, oid, none, tipo⟩],
                 nextOid := db.nextOid + 1 }) := by
  have hins := addAppointment_insert env db paciente fecha tipo oid hp (by rw [hd]; exact h)
  rw [hd] at hins
  exact hins

/-- Witness for the amended C6: inserting with the unparseable date string
"garbage" against `dbCita` succeeds and stores the Invalid Date value. -/
theorem addAppointment_invalid_date_witness :
    addAppointment demoEnv dbCita "000000000000000000000000" "garbage" "checkup"
        = (Except.ok ⟨2, 0, none, "checkup"⟩,
           ⟨dbCita.pacientes, dbCita.citas ++ [⟨2, 0, none, "checkup"⟩], 3⟩) :=
  addAppointment_invalid_date demoEnv dbCita "000000000000000000000000" "garbage" "checkup" 0
    (by decide) (by decide) (by decide)

/-- Claim C7: for every well-formed id, `deleteAppointment` returns true
exactly when a document with that id was removed and false when none matched,
never raising an error for a missing id; in particular a second call with the
same id after a successful first call returns false. -/
theorem deleteAppointment_spec (env : Env) (db : DB) (id : String) (oid : Nat)
    (hp : env.parseOid id = some oid)
    (hnd : (db.citas.map Cita._id).Nodup) :
    ((∀ c ∈ db.citas, c._id ≠ oid) →
        deleteAppointment env db id = (Except.ok false, db)) ∧
    ((∃ c ∈ db.citas, c._id = oid) →
        deleteAppointment env db id
            = (Except.ok true, { db with citas := deleteOneCita oid db.citas }) ∧
          deleteAppointment env { db with citas := deleteOneCita oid db.citas } id
            = (Except.ok false, { db with citas := deleteOneCita oid db.citas })) := by
  constructor
  · intro h
    exact deleteAppointment_missing env db id oid hp h
  · intro h
    refine ⟨deleteAppointment_found env db id oid hp h, ?_⟩
    apply deleteAppointment_missing _ _ _ oid hp
    intro c hc
    have hnone := deleteOneCita_find_none oid db.citas hnd
    rw [List.find?_eq_none] at hnone
    simpa using hnone c hc

/-- Witness for C7: deleting an absent id from `dbCita` returns false without
error, deleting the stored appointment returns true and removes it, and the
repeated call returns false. -/
theorem deleteAppointment_spec_witness :
    deleteAppointment demoEnv dbCita "000000000000000000000099" = (Except.ok false, dbCita) ∧
    (deleteAppointment demoEnv dbCita "000000000000000000000001"
        = (Except.ok true, ⟨dbCita.pacientes, [], 2⟩) ∧
     deleteAppointment demoEnv ⟨dbCita.pacientes, [], 2⟩ "000000000000000000000001"
        = (Except.ok false, ⟨dbCita.pacientes, [], 2⟩)) :=
  ⟨(deleteAppointment_spec demoEnv dbCita "000000000000000000000099" 99
      (by decide) (by decide)).1 (by decide),
   (deleteAppointment_spec demoEnv dbCita "000000000000000000000001" 1
      (by decide) (by decide)).2 (by decide)⟩

/-- Claim C8 (code bug): the claim says every operation taking an identifier
string fails with InvalidArgument on a malformed one.  getPacient,
deleteAppointment and addAppointment do (the ObjectId conversion fails before
any storage call), but updatePatient never converts its supplied id — the
`_id` versus `id` slip makes it look up a freshly generated identifier — so a
malformed id there produces NotFound instead of InvalidArgument. -/
theorem updatePatient_malformed_id_bug :
    demoEnv.parseOid "not-an-objectid" = none ∧
    getPacient demoEnv DB.empty "not-an-objectid" = Except.error Err.InvalidArgument ∧
    deleteAppointment demoEnv DB.empty "not-an-objectid"
        = (Except.error Err.InvalidArgument, DB.empty) ∧
    addAppointment demoEnv DB.empty "not-an-objectid" "2024-05-01" "checkup"
        = (Except.error Err.InvalidArgument, DB.empty) ∧
    updatePatient demoEnv DB.empty ⟨"not-an-objectid", some "Dan", none, none⟩
        = (Except.error Err.NotFound, DB.empty) := by decide

/-- Claim C9 counterexample: the claim says every stored patient has a phone
accepted by the validator and that `addPatient` preserves this invariant.
`addPatient` never consults the validator: inserting into the empty store a
patient whose phone the validator rejects succeeds and stores that phone. -/
theorem phone_invariant_cex :
    demoEnv.validar "bad" = false ∧
    (addPatient demoEnv DB.empty "Eva" "bad" "e@x.com").2.pacientes
        = [⟨0, "Eva", "bad", "e@x.com"⟩] := by decide

/-- Claim C9 (amended): the phone-format predicate is consulted only by
`updatePatient`, which under the `_id` versus `id` slip never writes at all,
so it trivially preserves any property of the stored patients; `addPatient`
inserts the supplied phone unvalidated, so stored patients need not satisfy
the predicate. -/
theorem phone_invariant_amended (env : Env) (db : DB) (args : UpdateArgs)
    (nombre telefono correo : String)
    (h : ∀ p ∈ db.pacientes, p.correo ≠ correo ∧ p.telefono ≠ telefono) :
    (updatePatient env db args).2 = db ∧
    (addPatient env db nombre telefono correo).2.pacientes
        = db.pacientes ++ [⟨db.nextOid, nombre, telefono, correo⟩] :=
  ⟨updatePatient_state_id env db args,
   by rw [addPatient_insert env db nombre telefono correo h]⟩

/-- Witness for the amended C9: an update attempt leaves `dbAna` unchanged,
and inserting a validator-rejected phone appends it to the store as given. -/
theorem phone_invariant_amended_witness :
    (updatePatient demoEnv dbAna ⟨"000000000000000000000000", none, some "bad", none⟩).2 = dbAna ∧
    (addPatient demoEnv dbAna "Eva" "bad" "e@x.com").2.pacientes
        = dbAna.pacientes ++ [⟨1, "Eva", "bad", "e@x.com"⟩] :=
  phone_invariant_amended demoEnv dbAna ⟨"000000000000000000000000", none, some "bad", none⟩
    "Eva" "bad" "e@x.com" (by decide)

/-- Claim C10: in `updatePatient` the existence check runs before the
phone-format validation: whenever the supplied id matches no stored patient
(and stored ids are below the fresh-id counter, as store-assigned ids are),
the call fails with NotFound, and the validator is never consulted — the
result is the same under every validator. -/
theorem updatePatient_existence_first (env : Env) (db : DB) (args : UpdateArgs)
    (hfresh : ∀ p ∈ db.pacientes, p._id ≠ db.nextOid)
    (hnomatch : ∀ p ∈ db.pacientes, env.parseOid args.id ≠ some p._id) :
    updatePatient env db args = (Except.error Err.NotFound, db) ∧
    (∀ v : String → Bool,
        updatePatient ⟨env.parseOid, env.jsDate, v⟩ db args
          = (Except.error Err.NotFound, db)) :=
  ⟨updatePatient_notFound env db args hfresh,
   fun v => updatePatient_notFound ⟨env.parseOid, env.jsDate, v⟩ db args hfresh⟩

/-- Witness for C10: an id matching no stored patient fails with NotFound on
`dbAna`, and the result is identical under a validator that rejects
everything — in particular the rejected phone never surfaces as
InvalidArgument. -/
theorem updatePatient_existence_first_witness :
    updatePatient demoEnv dbAna ⟨"000000000000000000000042", none, some "bad", none⟩
        = (Except.error Err.NotFound, dbAna) ∧
    updatePatient ⟨demoEnv.parseOid, demoEnv.jsDate, fun _ => false⟩ dbAna
        ⟨"000000000000000000000042", none, some "bad", none⟩
        = (Except.error Err.NotFound, dbAna) :=
  ⟨(updatePatient_existence_first demoEnv dbAna
      ⟨"000000000000000000000042", none, some "bad", none⟩ (by decide) (by decide)).1,
   (updatePatient_existence_first demoEnv dbAna
      ⟨"000000000000000000000042", none, some "bad", none⟩ (by decide) (by decide)).2
     (fun _ => false)⟩

end Medico
